import Mathlib

/-!
Verification development for the TelegramBridge relay engine.

The definitions below are a shallow embedding of the relay code in
`src/app/telegram/utils.py`, `src/app/telegram/bot.py`,
`src/app/telegram/callbacks.py` and the persistence models in
`src/app/models/*.py` / `src/app/config/telegram_config.py`.
Persisted tables are modelled as Lean lists in insertion order
(SQLAlchemy `.first()` returns the first matching row, `.all()` returns
every matching row); the Telegram transport is modelled as an oracle
that yields the outcome of each outbound call.
-/

namespace TelegramBridge

/-! ## Retry policy (`retry_with_backoff`, utils.py lines 58-95,
`TelegramConfig.get_retry_config`, telegram_config.py lines 120-126) -/

/-- Outcome of one outbound transport call, as classified by the
`except` clauses of `retry_with_backoff`:
`TimedOut`/`NetworkError` are transient; a `BadRequest` whose text says
"message thread not found" or "chat not found" is the stale-thread case;
any other `BadRequest` and any other exception are surfaced unretried. -/
inductive CallOutcome where
  | ok (msgId : Nat)
  | timedOut
  | staleBadRequest
  | otherBadRequest
  | otherError
deriving DecidableEq, Repr

/-- Result of `retry_with_backoff`: either the wrapped call returned
(after `calls` total invocations), or an exception was surfaced. -/
inductive RetryResult where
  | success (msgId : Nat) (calls : Nat)
  | staleSurfaced
  | badRequestSurfaced
  | transientExhausted
  | errorSurfaced
deriving DecidableEq, Repr

/-- Retry configuration, as produced by `TelegramConfig.get_retry_config`. -/
structure RetryConfig where
  max_retries : Nat
  initial_wait : ℚ
  max_wait : ℚ
deriving DecidableEq, Repr

/-- `TelegramConfig.get_retry_config`: `max_retries` and
`retry_initial_wait` come from the environment (defaults 3 and 1.0);
`max_wait` is the constant 60.0. -/
def get_retry_config (max_retries : Nat) (retry_initial_wait : ℚ) : RetryConfig :=
  { max_retries := max_retries, initial_wait := retry_initial_wait, max_wait := 60 }

/-- The `while True` loop of `retry_with_backoff`.  `call` gives the
outcome of each attempt (numbered from 0), `wait` is the running
`wait_time`, and `remaining` is the number of retries still allowed
(`max_retries - retries`); the code raises when `retries > max_retries`,
i.e. when `remaining` is exhausted.  Returns the result together with
the list of waits actually slept, in order: on each transient failure
the code sets `wait_time = min(wait_time * 2, max_wait)` and sleeps
that long before the next attempt. -/
def retryAux (call : Nat → CallOutcome) (maxWait : ℚ) :
    Nat → ℚ → Nat → RetryResult × List ℚ
  | attempt, _, 0 =>
    match call attempt with
    | .ok m => (.success m (attempt + 1), [])
    | .staleBadRequest => (.staleSurfaced, [])
    | .otherBadRequest => (.badRequestSurfaced, [])
    | .otherError => (.errorSurfaced, [])
    | .timedOut => (.transientExhausted, [])
  | attempt, wait, remaining + 1 =>
    match call attempt with
    | .ok m => (.success m (attempt + 1), [])
    | .staleBadRequest => (.staleSurfaced, [])
    | .otherBadRequest => (.badRequestSurfaced, [])
    | .otherError => (.errorSurfaced, [])
    | .timedOut =>
      let w := min (wait * 2) maxWait
      let rest := retryAux call maxWait (attempt + 1) w remaining
      (rest.1, w :: rest.2)

/-- `retry_with_backoff(func, ...)` with the transport behaviour `call`. -/
def retry_with_backoff (call : Nat → CallOutcome) (cfg : RetryConfig) :
    RetryResult × List ℚ :=
  retryAux call cfg.max_wait 0 cfg.initial_wait cfg.max_retries

/-! ## Stale-thread self-healing (`send_message_to_topic`,
utils.py lines 467-518) -/

/-- Outcome of one `admin_chat.send_copy` into a given topic. -/
inductive SendToTopicOutcome where
  | sent (msgId : Nat)
  | staleThread
  | otherBadRequest
deriving DecidableEq, Repr

/-- Transport behaviour seen by `send_message_to_topic`:
`sendCopy` is the outcome of sending into a given topic id, and
`recreateTopic n` is the topic returned by the n-th call to
`create_or_get_user_topic` made while recreating (`none` = creation
failed, in which case the code re-raises the original exception). -/
structure TopicTransport where
  sendCopy : Nat → SendToTopicOutcome
  recreateTopic : Nat → Option Nat

/-- Result of `send_message_to_topic` together with how many
delete-and-recreate cycles were performed.  `fuelExhausted` marks a run
that was still recreating and retrying when the step budget ran out
(the Python code has no such budget: it recurses at line 508 on every
stale failure). -/
inductive TopicSendResult where
  | success (msgId : Nat)
  | failed
  | fuelExhausted
deriving DecidableEq, Repr

/-- `send_message_to_topic(context, message, topic_id, ..., user)` with
a user supplied.  On a stale-thread `BadRequest` the code deletes the
`FormnStatus` row, calls `create_or_get_user_topic` and, if that
returns a topic, recursively calls itself with the new topic id
(utils.py line 508); the recursion is bounded here only by `fuel`.
`recreations` counts the delete-and-recreate cycles performed. -/
def send_message_to_topic (env : TopicTransport) :
    Nat → Nat → Nat → TopicSendResult × Nat
  | _, recreations, 0 => (.fuelExhausted, recreations)
  | topicId, recreations, fuel + 1 =>
    match env.sendCopy topicId with
    | .sent m => (.success m, recreations)
    | .otherBadRequest => (.failed, recreations)
    | .staleThread =>
      match env.recreateTopic recreations with
      | none => (.failed, recreations)
      | some newTopic => send_message_to_topic env newTopic (recreations + 1) fuel

/-- A transport on which every send fails with a stale-thread error and
every recreation succeeds (with a fresh topic id). -/
def allStaleTransport : TopicTransport :=
  { sendCopy := fun _ => .staleThread, recreateTopic := fun n => some (100 + n) }

/-! ## Cross-reference rows (`MessageMap`, models/message_map.py).
The relay code additionally reads and writes `is_from_group`,
`source_group_id` and `source_group_name` on `MessageMap` rows
(utils.py, callbacks.py, group_handlers.py), so those fields are part
of the row as the relay engine sees it. -/

structure MessageMap where
  user_chat_message_id : Nat
  group_chat_message_id : Nat
  user_telegram_id : Nat
  is_unread_topic : Bool := false
  unread_topic_message_id : Option Nat := none
  is_from_group : Bool := false
  source_group_id : Option Int := none
  source_group_name : Option String := none
  handled_by_user_id : Option Nat := none
  handled_time : Option Nat := none
deriving DecidableEq, Repr

/-- Python truthiness of an optional integer (`if ... and source_group_id:`):
`None` and `0` are falsy. -/
def optIntTruthy : Option Int → Bool
  | none => false
  | some g => g != 0

/-- The row filter shared by every unread-message query in the code:
`user_telegram_id == userId`, `is_unread_topic == True`, and then
either (`is_from_group == True` and `source_group_id == gid`) for a
group-sourced trigger, or `is_from_group == False` for a private one. -/
def unreadQueryMatches (r : MessageMap) (userId : Nat) (fromGroup : Bool)
    (gid : Option Int) : Bool :=
  r.user_telegram_id == userId && r.is_unread_topic &&
    (if fromGroup then r.is_from_group && r.source_group_id == gid
     else !r.is_from_group)

/-- The mark-read loop shared by `process_callback_read`,
`process_callback_read_all` (scoped branch), `forward_message_to_user`
and `forwarding_message_a2u`: every row matched by the unread query has
`is_unread_topic` cleared and `handled_by_user_id` / `handled_time`
set. -/
def markHandledScoped (rows : List MessageMap) (userId : Nat) (fromGroup : Bool)
    (gid : Option Int) (handlerId : Nat) (now : Nat) : List MessageMap :=
  rows.map fun r =>
    if unreadQueryMatches r userId fromGroup gid then
      { r with is_unread_topic := false,
               handled_by_user_id := some handlerId,
               handled_time := some now }
    else r

/-- `process_callback_read` (callbacks.py lines 333-422): looks up the
cross-reference row for the admin-side message id, derives the
source-channel key from it (`if is_from_group and source_group_id:`)
and clears exactly the unread rows matching that key. -/
def process_callback_read (rows : List MessageMap) (msgId : Nat)
    (handlerId : Nat) (now : Nat) : List MessageMap :=
  match rows.find? (fun r => r.group_chat_message_id == msgId) with
  | none => rows
  | some m =>
    if m.is_from_group && optIntTruthy m.source_group_id then
      markHandledScoped rows m.user_telegram_id true m.source_group_id handlerId now
    else
      markHandledScoped rows m.user_telegram_id false none handlerId now

/-! ## Thread registry rows (`FormnStatus`, models/formn_status.py).
The ORM model declares columns `id`, `user_id`, `topic_id` (the only
column with `unique=True`), `topic_name`, `status`, `is_system_topic`,
`created_at`, `updated_at`.  The relay code additionally references
`from_group`, `source_group_id` and `source_group_name` on these rows
(utils.py lines 281-288 etc.), so they appear here as fields. -/

structure FormnStatus where
  user_id : Option Nat := none
  topic_id : Nat
  topic_name : String := ""
  status : String := "opened"
  is_system_topic : Bool := false
  from_group : Bool := false
  source_group_id : Option Int := none
  source_group_name : Option String := none
deriving DecidableEq, Repr

/-- The columns of `formn_status` declared `unique=True` in
models/formn_status.py: only `topic_id`. -/
def formn_status_unique_columns : List String := ["topic_id"]

/-- The database accepts an insert into `formn_status` iff it violates
no declared uniqueness constraint; per the model file that is only the
`topic_id` column. -/
def formnInsertOk (db : List FormnStatus) (r : FormnStatus) : Bool :=
  db.all fun x => x.topic_id != r.topic_id

/-- The lookup at the start of `create_or_get_user_topic`
(utils.py lines 281-290): first row with `user_id == user.id` and
`from_group == from_group`, further filtered by `source_group_id` when
`from_group and source_group_id` is truthy. -/
def findUserTopic (db : List FormnStatus) (uid : Nat) (fromGroup : Bool)
    (gid : Option Int) : Option FormnStatus :=
  db.find? fun f =>
    f.user_id == some uid && f.from_group == fromGroup &&
      (if fromGroup && optIntTruthy gid then f.source_group_id == gid else true)

/-- The `FormnStatus` row committed for a newly created topic
(utils.py lines 373-384). -/
def newTopicRow (uid : Nat) (fromGroup : Bool) (gid : Option Int)
    (topicId : Nat) : FormnStatus :=
  { user_id := some uid, topic_id := topicId, from_group := fromGroup,
    source_group_id := if fromGroup then gid else none }

/-- The persistence skeleton of `create_or_get_user_topic`
(utils.py lines 269-294 and 352-385): look up an existing row and
return it; otherwise create a remote topic (yielding `freshTopicId`)
and insert a new row, which the database accepts subject only to the
`topic_id` uniqueness check.  The Premium-label refresh of the existing
row does not affect which row exists and is omitted. -/
def create_or_get_user_topic (db : List FormnStatus) (uid : Nat) (fromGroup : Bool)
    (gid : Option Int) (freshTopicId : Nat) : List FormnStatus × Option Nat :=
  match findUserTopic db uid fromGroup gid with
  | some f => (db, some f.topic_id)
  | none =>
    let r := newTopicRow uid fromGroup gid freshTopicId
    if formnInsertOk db r then (db ++ [r], some freshTopicId) else (db, none)

/-- Number of non-system thread rows recorded for one
(user id, source-channel key) pair. -/
def countNonSystemTopics (db : List FormnStatus) (uid : Nat) (fromGroup : Bool)
    (gid : Option Int) : Nat :=
  (db.filter fun f =>
    !f.is_system_topic && f.user_id == some uid && f.from_group == fromGroup &&
      f.source_group_id == gid).length

/-- First-contact row inserted by the first of two racing
`create_or_get_user_topic` calls for user 7's private channel. -/
def racingRowA : FormnStatus := { user_id := some 7, topic_id := 10 }

/-- First-contact row inserted by the second racing call. -/
def racingRowB : FormnStatus := { user_id := some 7, topic_id := 11 }

/-- `process_callback_read_all` (callbacks.py lines 163-236): resolve
the topic the button lives in to a `FormnStatus` row; if found, clear
unread rows scoped to that row's source-channel key; if the topic
cannot be resolved, clear every unread row of the user across all
source channels. -/
def process_callback_read_all (formn : List FormnStatus) (rows : List MessageMap)
    (targetUserId : Nat) (topicCtx : Option Nat) (handlerId : Nat) (now : Nat) :
    List MessageMap :=
  let fs : Option FormnStatus := match topicCtx with
    | none => none
    | some t => formn.find? (fun f => f.topic_id == t)
  match fs with
  | some f =>
    if f.from_group && optIntTruthy f.source_group_id then
      markHandledScoped rows targetUserId true f.source_group_id handlerId now
    else
      markHandledScoped rows targetUserId false none handlerId now
  | none =>
    rows.map fun r =>
      if r.user_telegram_id == targetUserId && r.is_unread_topic then
        { r with is_unread_topic := false,
                 handled_by_user_id := some handlerId,
                 handled_time := some now }
      else r

/-! ## Unread notification deduplication (`send_to_unread_topic`,
utils.py lines 520-750, and the persist step of
`forward_message_to_admin`, lines 804-820) -/

/-- Update the first element satisfying `p` (SQLAlchemy mutates the
object returned by `.first()`). -/
def updateFirstBy {α : Type} (p : α → Bool) (f : α → α) : List α → List α
  | [] => []
  | x :: xs => if p x then f x :: xs else x :: updateFirstBy p f xs

/-- State seen by the deduplicator: the `message_map` table plus the
list of alert messages posted into the shared unread topic, in order. -/
structure UnreadState where
  rows : List MessageMap
  alerts : List Nat
deriving DecidableEq, Repr

/-- The existing-unread lookup of `send_to_unread_topic`
(utils.py lines 549-562): is there already an unread row of this user
with the same source-channel key? -/
def hasUnreadSameSource (rows : List MessageMap) (userId : Nat) (fromGroup : Bool)
    (gid : Option Int) : Bool :=
  rows.any fun r => unreadQueryMatches r userId fromGroup gid

/-- `send_to_unread_topic` (success path): look up the cross-reference
row for `adminMsgId`; if the user already has an unread row with the
same source-channel key, only flag this row unread (no alert); else
post one alert (which the transport assigns id `alertId`), flag the row
unread and store the alert id on it.  Returns the new state and the
function's boolean result. -/
def send_to_unread_topic (st : UnreadState) (userId : Nat) (adminMsgId : Nat)
    (alertId : Nat) : UnreadState × Bool :=
  match st.rows.find? (fun r => r.group_chat_message_id == adminMsgId) with
  | none => (st, false)
  | some m =>
    let isTrigger : MessageMap → Bool := fun r => r.group_chat_message_id == adminMsgId
    let flagOnly : MessageMap → MessageMap := fun r => { r with is_unread_topic := true }
    let flagAndStore : MessageMap → MessageMap := fun r =>
      { r with is_unread_topic := true, unread_topic_message_id := some alertId }
    if hasUnreadSameSource st.rows userId m.is_from_group m.source_group_id then
      ({ st with rows := updateFirstBy isTrigger flagOnly st.rows }, true)
    else
      ({ rows := updateFirstBy isTrigger flagAndStore st.rows,
         alerts := st.alerts ++ [alertId] }, true)

/-- The persist-then-deduplicate step of `forward_message_to_admin` for
one successfully mirrored private message (utils.py lines 804-820): a
new cross-reference row is committed (`is_from_group=False`, unread
flag at its default `False`) and `send_to_unread_topic` is invoked on
the mirrored id. -/
def relayPrivateMessage (st : UnreadState) (userId : Nat) (originId : Nat)
    (mirrorId : Nat) (alertId : Nat) : UnreadState × Bool :=
  let st1 : UnreadState :=
    { st with rows := st.rows ++
        [{ user_chat_message_id := originId, group_chat_message_id := mirrorId,
           user_telegram_id := userId }] }
  send_to_unread_topic st1 userId mirrorId alertId

/-- Relay a sequence of private messages, each given as
(origin id, mirrored id, alert id the transport would assign). -/
def relaySeq (st : UnreadState) (userId : Nat) :
    List (Nat × Nat × Nat) → UnreadState
  | [] => st
  | (o, m, a) :: rest => relaySeq (relayPrivateMessage st userId o m a).1 userId rest

/-! ## The bot.py dispatcher (`forwarding_message_u2a` lines 291-417,
`forwarding_message_a2u` lines 420-536).  bot.py keys thread-status
rows by a `FormnStatus.message_thread_id` attribute and resolves users
through `User.message_thread_id`; the ORM model in formn_status.py
names its thread-id column `topic_id`, so the status rows are modelled
here as bot.py uses them. -/

/-- The `User` row fields bot.py's dispatcher reads
(models/user.py): `message_thread_id = 0` means no topic yet. -/
structure BotUser where
  user_id : Nat
  message_thread_id : Nat
deriving DecidableEq, Repr

/-- A thread-status row as read and written by bot.py:
`status` is `"opened"` or `"closed"`. -/
structure ThreadStatusRow where
  message_thread_id : Nat
  status : String
deriving DecidableEq, Repr

/-- State of the bot.py dispatcher: the `user` table, the thread-status
table and the `message_map` table. -/
structure BotState where
  users : List BotUser
  formn : List ThreadStatusRow
  message_map : List MessageMap
deriving DecidableEq, Repr

/-- Set the status of the first row for the given thread, as the
`forum_topic_closed` / `forum_topic_reopened` handlers do. -/
def setThreadStatus (formn : List ThreadStatusRow) (t : Nat) (s : String) :
    List ThreadStatusRow :=
  updateFirstBy (fun f => f.message_thread_id == t) (fun f => { f with status := s }) formn

/-- Outcome of `forwarding_message_u2a`. -/
inductive U2aOutcome where
  | noUserRecord
  | closedNotice
  | needNewTopic
  | relayed (sentMsgId : Nat) (replyParam : Option Nat)
deriving DecidableEq, Repr

/-- The send-and-persist tail of `forwarding_message_u2a`
(bot.py lines 354-400): resolve the optional reply target through the
cross-reference store (`user_chat_message_id == reply id`, passing the
counterpart `group_chat_message_id` as `reply_to_message_id`), copy the
message into the topic (the transport assigns `sentId`), and commit the
cross-reference row.  The topic-creation branch for users without a
topic (lines 322-352) is reported as `needNewTopic`. -/
def u2aSend (st : BotState) (uid : Nat) (msgId : Nat) (replyTo : Option Nat)
    (sentId : Nat) (t : Nat) : BotState × U2aOutcome :=
  if t == 0 then (st, .needNewTopic)
  else
    let replyParam := replyTo.bind fun rid =>
      (st.message_map.find? (fun mm => mm.user_chat_message_id == rid)).map
        (·.group_chat_message_id)
    ({ st with message_map := st.message_map ++
        [{ user_chat_message_id := msgId, group_chat_message_id := sentId,
           user_telegram_id := uid }] },
     .relayed sentId replyParam)

/-- `forwarding_message_u2a`: look up the sender's thread, reject with a
notice if its status row says `"closed"` (before anything is sent or
persisted), otherwise relay. -/
def forwarding_message_u2a (st : BotState) (uid : Nat) (msgId : Nat)
    (replyTo : Option Nat) (sentId : Nat) : BotState × U2aOutcome :=
  match st.users.find? (fun u => u.user_id == uid) with
  | none => (st, .noUserRecord)
  | some u =>
    let t := u.message_thread_id
    match st.formn.find? (fun f => f.message_thread_id == t) with
    | some f =>
      if f.status == "closed" then (st, .closedNotice)
      else u2aSend st uid msgId replyTo sentId t
    | none => u2aSend st uid msgId replyTo sentId t

/-- Lifecycle events carried by an admin-group message. -/
inductive TopicEvent where
  | plain
  | topicCreated
  | topicClosed
  | topicReopened
deriving DecidableEq, Repr

/-- Outcome of `forwarding_message_a2u`. -/
inductive A2uOutcome where
  | notTopicMessage
  | noUser
  | statusRecorded
  | closedNotice
  | relayed (sentMsgId : Nat) (replyParam : Option Nat)
deriving DecidableEq, Repr

/-- The send-and-persist tail of `forwarding_message_a2u`
(bot.py lines 483-531): resolve the optional reply target through the
cross-reference store (`group_chat_message_id == reply id`, passing the
counterpart `user_chat_message_id` as `reply_to_message_id`), copy the
message to the user (the transport assigns `sentId`), and commit the
cross-reference row. -/
def a2uSend (st : BotState) (uid : Nat) (msgId : Nat) (replyTo : Option Nat)
    (sentId : Nat) : BotState × A2uOutcome :=
  let replyParam := replyTo.bind fun rid =>
    (st.message_map.find? (fun mm => mm.group_chat_message_id == rid)).map
      (·.user_chat_message_id)
  ({ st with message_map := st.message_map ++
      [{ user_chat_message_id := sentId, group_chat_message_id := msgId,
         user_telegram_id := uid }] },
   .relayed sentId replyParam)

/-- `forwarding_message_a2u`: resolve the topic's user; record lifecycle
events (`forum_topic_created` inserts an `"opened"` status row,
`forum_topic_closed` sets `"closed"` and notifies the user,
`forum_topic_reopened` sets `"opened"` and notifies); for a plain
message, reject with a reopen notice when the status row says
`"closed"`, otherwise relay. -/
def forwarding_message_a2u (st : BotState) (t : Nat) (msgId : Nat)
    (ev : TopicEvent) (replyTo : Option Nat) (sentId : Nat) : BotState × A2uOutcome :=
  if t == 0 then (st, .notTopicMessage)
  else
    match st.users.find? (fun u => u.message_thread_id == t) with
    | none => (st, .noUser)
    | some u =>
      match ev with
      | .topicCreated =>
        ({ st with formn := st.formn ++ [{ message_thread_id := t, status := "opened" }] },
         .statusRecorded)
      | .topicClosed =>
        ({ st with formn := setThreadStatus st.formn t "closed" }, .statusRecorded)
      | .topicReopened =>
        ({ st with formn := setThreadStatus st.formn t "opened" }, .statusRecorded)
      | .plain =>
        match st.formn.find? (fun f => f.message_thread_id == t) with
        | some f =>
          if f.status == "closed" then (st, .closedNotice)
          else a2uSend st u.user_id msgId replyTo sentId
        | none => a2uSend st u.user_id msgId replyTo sentId

/-! ## Media-group batching (`handle_media_group`, utils.py
lines 937-1021, and `send_media_group_to_admin`, lines 1023-1099) -/

/-- A `media_group_messages` row (models/media_group_message.py). -/
structure MediaGroupMessage where
  chat_id : Int
  message_id : Nat
  media_group_id : String
deriving DecidableEq, Repr

/-- A pending one-shot job in the scheduler, identified by name. -/
structure JobRec where
  name : String
  delay : ℚ
deriving DecidableEq, Repr

/-- `MEDIA_GROUP_DELAY = 5.0` (utils.py line 56). -/
def MEDIA_GROUP_DELAY : ℚ := 5

/-- State of the batch aggregator: the `media_group_messages` table, the
scheduler's pending jobs, the ordered list of batch-relay calls made
(each recorded as the ordered origin ids it copied), and the
`message_map` table. -/
structure AggState where
  media_msgs : List MediaGroupMessage
  jobs : List JobRec
  batches : List (List Nat)
  message_map : List MessageMap
deriving DecidableEq, Repr

/-- The u2a job name `f"media_group_{media_group_id}_{user.id}_u2a"`. -/
def mediaGroupJobName (mediaGroupId : String) (uid : Nat) : String :=
  "media_group_" ++ mediaGroupId ++ "_" ++ toString uid ++ "_u2a"

/-- The sort key of `media_group_msgs.sort(key=lambda m: m.message_id)`. -/
def byMessageId (a b : MediaGroupMessage) : Prop := a.message_id ≤ b.message_id

instance : DecidableRel byMessageId := fun a b => Nat.decLe a.message_id b.message_id

instance : IsTotal MediaGroupMessage byMessageId :=
  ⟨fun a b => Nat.le_total a.message_id b.message_id⟩

instance : IsTrans MediaGroupMessage byMessageId :=
  ⟨fun _ _ _ => Nat.le_trans⟩

/-- Sort parts by `message_id`. -/
def sortByMessageId (l : List MediaGroupMessage) : List MediaGroupMessage :=
  List.insertionSort byMessageId l

/-- The parts recorded for one (`media_group_id`, user chat) key
(the query at utils.py lines 1035-1038). -/
def mediaPartsOf (st : AggState) (uid : Nat) (mediaGroupId : String) :
    List MediaGroupMessage :=
  st.media_msgs.filter fun m =>
    m.media_group_id == mediaGroupId && m.chat_id == (uid : Int)

/-- `handle_media_group` on the user-to-admin path (utils.py
lines 944-986): commit the part to `media_group_messages`, then
schedule `send_media_group_to_admin` with delay `MEDIA_GROUP_DELAY`
under the `media_group_{id}_{uid}_u2a` name — unless
`get_jobs_by_name` already shows a pending job of that name, in which
case no second timer is created. -/
def handle_media_group_u2a (st : AggState) (uid : Nat) (msgId : Nat)
    (mediaGroupId : String) : AggState :=
  let newPart : MediaGroupMessage :=
    { chat_id := (uid : Int), message_id := msgId, media_group_id := mediaGroupId }
  let st1 : AggState := { st with media_msgs := st.media_msgs ++ [newPart] }
  let jobName := mediaGroupJobName mediaGroupId uid
  let newJob : JobRec := { name := jobName, delay := MEDIA_GROUP_DELAY }
  if st1.jobs.any (fun j => j.name == jobName) then st1
  else { st1 with jobs := st1.jobs ++ [newJob] }

/-- `send_media_group_to_admin` firing (utils.py lines 1034-1086): the
scheduler consumes the one-shot job; every part recorded for
(`media_group_id`, user chat) is collected, ordered by `message_id`,
and relayed by a single `send_copies` call, whose returned ids
`mirrorIds` are cross-referenced to the origin parts by position
(`enumerate` + index guard, lines 1074-1083). -/
def send_media_group_to_admin (st : AggState) (uid : Nat) (mediaGroupId : String)
    (mirrorIds : List Nat) : AggState :=
  let jobName := mediaGroupJobName mediaGroupId uid
  let parts := sortByMessageId (mediaPartsOf st uid mediaGroupId)
  { st with
    jobs := st.jobs.filter (fun j => j.name != jobName),
    batches := st.batches ++ [parts.map (·.message_id)],
    message_map := st.message_map ++ (mirrorIds.zip parts).map (fun p =>
      { user_chat_message_id := p.2.message_id, group_chat_message_id := p.1,
        user_telegram_id := uid }) }

/-! ## The dispatcher's failure handling (`forward_message_to_admin`,
utils.py lines 752-824) -/

/-- Outcome of one attempt to deliver the user's message into the topic
through `send_message_to_topic`: delivered, helper returned `None`
(unsupported content), a stale-thread `BadRequest` propagated, or some
other exception propagated. -/
inductive TopicSendAttempt where
  | delivered (msgId : Nat)
  | unsupported
  | staleRaised
  | otherRaised
deriving DecidableEq, Repr

/-- Environment of one `forward_message_to_admin` run: `resolveTopic n`
is the result of the n-th `create_or_get_user_topic` call (the topic's
thread id, or `none` when creation failed after retries), and
`sendAttempt n` the outcome of the n-th delivery attempt. -/
structure AdminForwardEnv where
  resolveTopic : Nat → Option Nat
  sendAttempt : Nat → TopicSendAttempt

/-- Outcome of `forward_message_to_admin` as seen by the user. -/
inductive AdminForwardOutcome where
  | ignoredTopicCreated
  | topicFailureNotice
  | unsupportedNotice
  | relayed (adminMsgId : Nat)
  | errorNotice
deriving DecidableEq, Repr

/-- Commit the cross-reference row for a delivered private message
(utils.py lines 806-815). -/
def persistAdminMap (rows : List MessageMap) (uid : Nat) (msgId : Nat)
    (adminMsgId : Nat) : List MessageMap :=
  rows ++ [{ user_chat_message_id := msgId, group_chat_message_id := adminMsgId,
             user_telegram_id := uid }]

/-- `forward_message_to_admin` (utils.py lines 752-824): ignore
topic-created service messages; resolve or create the user's topic,
surfacing a failure notice (and persisting nothing) when that yields no
topic; attempt delivery; on a stale-thread error recreate the topic
once at this level and retry, any further exception falling through to
the outer handler's failure notice; commit the cross-reference row only
after a successful delivery. -/
def forward_message_to_admin (env : AdminForwardEnv) (rows : List MessageMap)
    (uid : Nat) (msgId : Nat) (forumTopicCreated : Bool) :
    List MessageMap × AdminForwardOutcome :=
  if forumTopicCreated then (rows, .ignoredTopicCreated)
  else
    match env.resolveTopic 0 with
    | none => (rows, .topicFailureNotice)
    | some _ =>
      match env.sendAttempt 0 with
      | .delivered m => (persistAdminMap rows uid msgId m, .relayed m)
      | .unsupported => (rows, .unsupportedNotice)
      | .otherRaised => (rows, .errorNotice)
      | .staleRaised =>
        match env.resolveTopic 1 with
        | none => (rows, .topicFailureNotice)
        | some _ =>
          match env.sendAttempt 1 with
          | .delivered m => (persistAdminMap rows uid msgId m, .relayed m)
          | .unsupported => (rows, .unsupportedNotice)
          | .staleRaised => (rows, .errorNotice)
          | .otherRaised => (rows, .errorNotice)

/-! ## Concrete inputs used by witnesses and counterexamples -/

/-- Transport behaviour for the claim C2 witness: the first three calls
time out and the fourth succeeds (`max_retries = 3`). -/
def c2CallThreeTimeouts : Nat → CallOutcome :=
  fun i => if i < 3 then .timedOut else .ok 42

/-- Transport behaviour for the claim C2 witness: every call times out. -/
def c2CallAlwaysTimeout : Nat → CallOutcome := fun _ => .timedOut

/-- Transport for the claim C1 witness: topic 5 accepts the send, every
other topic is stale, recreation returns topic 5. -/
def c1HappyTransport : TopicTransport :=
  { sendCopy := fun i => if i == 5 then .sent 77 else .staleThread,
    recreateTopic := fun _ => some 5 }

/-- Transport for the claim C1 witness: every send stale, recreation
always fails. -/
def c1FailTransport : TopicTransport :=
  { sendCopy := fun _ => .staleThread, recreateTopic := fun _ => none }

/-- An unread private-sourced cross-reference row of user 7, mirrored
as admin message 50. -/
def c3UnreadRow : MessageMap :=
  { user_chat_message_id := 1, group_chat_message_id := 50, user_telegram_id := 7,
    is_unread_topic := true }

/-- Deduplicator state holding that one unread row and no alerts. -/
def c3State : UnreadState := { rows := [c3UnreadRow], alerts := [] }

/-- Five inbound private messages of user 7 with no intervening
mark-read, given as (origin id, mirrored id, alert id). -/
def burstFive : List (Nat × Nat × Nat) :=
  [(1, 101, 500), (2, 102, 501), (3, 103, 502), (4, 104, 503), (5, 105, 504)]

/-- State after relaying the five-message burst from an empty store. -/
def burstState : UnreadState := relaySeq { rows := [], alerts := [] } 7 burstFive

/-- The burst state after `markHandled` for (user 7, private). -/
def burstHandled : UnreadState :=
  { rows := markHandledScoped burstState.rows 7 false none 9 0,
    alerts := burstState.alerts }

/-- Unread row of user 7 sourced from group -100, mirrored as admin
message 50 (the mark-read trigger row for claims C4/C10 witnesses). -/
def c4RowGroupA : MessageMap :=
  { user_chat_message_id := 1, group_chat_message_id := 50, user_telegram_id := 7,
    is_unread_topic := true, is_from_group := true, source_group_id := some (-100) }

/-- Unread row of the same user sourced from a different group -200. -/
def c4RowGroupB : MessageMap :=
  { user_chat_message_id := 2, group_chat_message_id := 51, user_telegram_id := 7,
    is_unread_topic := true, is_from_group := true, source_group_id := some (-200) }

/-- Unread private-sourced row of the same user. -/
def c4RowPrivate : MessageMap :=
  { user_chat_message_id := 3, group_chat_message_id := 52, user_telegram_id := 7,
    is_unread_topic := true }

/-- Unread private-sourced row of a different user 8. -/
def c4RowOther : MessageMap :=
  { user_chat_message_id := 4, group_chat_message_id := 53, user_telegram_id := 8,
    is_unread_topic := true }

/-- A cross-reference table with unread rows of user 7 from group -100,
group -200 and private, plus one of user 8. -/
def c4Rows : List MessageMap := [c4RowGroupA, c4RowGroupB, c4RowPrivate, c4RowOther]

/-- Dispatcher state for the claim C5 witness: user 7 owns thread 3, no
status rows, empty cross-reference store. -/
def c5State : BotState :=
  { users := [{ user_id := 7, message_thread_id := 3 }], formn := [],
    message_map := [] }

/-- Dispatcher state for the claim C7 witness: user 7 owns thread 3 and
its status row says `"closed"`. -/
def c7State : BotState :=
  { users := [{ user_id := 7, message_thread_id := 3 }],
    formn := [{ message_thread_id := 3, status := "closed" }],
    message_map := [] }

/-- Empty aggregator state for the claim C8 witness. -/
def c8s0 : AggState := { media_msgs := [], jobs := [], batches := [], message_map := [] }

/-- Aggregator state after the first part (message 1) of media group
"g1" from user 9 arrives at t=0. -/
def c8s1 : AggState := handle_media_group_u2a c8s0 9 1 "g1"

/-- State after the parts at t=1 (message 2) and t=2 (message 3). -/
def c8s3 : AggState :=
  handle_media_group_u2a (handle_media_group_u2a c8s1 9 2 "g1") 9 3 "g1"

/-- State after the timer fires at t=5 and the transport returns
mirrored ids 201, 202, 203 for the batch. -/
def c8s4 : AggState := send_media_group_to_admin c8s3 9 "g1" [201, 202, 203]

/-- Environment for the claim C9 witness: thread resolution fails after
retries on every call. -/
def c9NoTopicEnv : AdminForwardEnv :=
  { resolveTopic := fun _ => none, sendAttempt := fun _ => .delivered 0 }

/-! # Helper lemmas -/

theorem find?_append_right {α : Type} (p : α → Bool) (l : List α) (a : α)
    (h : l.find? p = none) :
    (l ++ [a]).find? p = if p a then some a else none := by
  induction l with
  | nil => cases hpa : p a <;> simp [List.find?, hpa]
  | cons x xs ih =>
    by_cases hx : p x = true
    · simp [List.find?_cons_of_pos _ hx] at h
    · have hx' : ¬ p x = true := hx
      rw [List.cons_append, List.find?_cons_of_neg _ hx']
      rw [List.find?_cons_of_neg _ hx'] at h
      exact ih h

theorem find?_updateFirstBy {α : Type} (p : α → Bool) (f : α → α) (l : List α)
    (hpf : ∀ x, p x = true → p (f x) = true) :
    (updateFirstBy p f l).find? p = (l.find? p).map f := by
  induction l with
  | nil => simp [updateFirstBy]
  | cons x xs ih =>
    by_cases hx : p x = true
    · simp [updateFirstBy, hx, List.find?_cons_of_pos _ hx,
        List.find?_cons_of_pos _ (hpf x hx)]
    · have hx2 : p x = false := by simpa using hx
      simp [updateFirstBy, hx2, List.find?_cons_of_neg, ih]

theorem retryAux_waits_head (call : Nat → CallOutcome) (W : ℚ) (r a : Nat) (w x : ℚ)
    (h : ((retryAux call W a w r).2).head? = some x) : x = min (w * 2) W := by
  cases r with
  | zero => cases hc : call a <;> simp [retryAux, hc] at h
  | succ r =>
    cases hc : call a <;> simp [retryAux, hc] at h
    exact h.symm

theorem retryAux_waits_bounds (call : Nat → CallOutcome) (W : ℚ) (hW : 0 ≤ W) :
    ∀ (r a : Nat) (w : ℚ), 0 ≤ w → ∀ x ∈ (retryAux call W a w r).2, 0 ≤ x ∧ x ≤ W := by
  intro r
  induction r with
  | zero => intro a w _ x hx; cases hc : call a <;> simp [retryAux, hc] at hx
  | succ r ih =>
    intro a w hw x hx
    cases hc : call a <;> simp [retryAux, hc] at hx
    rcases hx with rfl | hx
    · exact ⟨le_min (by linarith) hW, min_le_right _ _⟩
    · exact ih (a + 1) (min (w * 2) W) (le_min (by linarith) hW) x hx

theorem retryAux_waits_doubling (call : Nat → CallOutcome) (W : ℚ) :
    ∀ (r a : Nat) (w : ℚ),
      List.Chain' (fun x y => y = min (x * 2) W) (retryAux call W a w r).2 := by
  intro r
  induction r with
  | zero => intro a w; cases hc : call a <;> simp [retryAux, hc]
  | succ r ih =>
    intro a w
    cases hc : call a <;> simp [retryAux, hc]
    refine List.chain'_cons'.2 ⟨?_, ih (a + 1) (min (w * 2) W)⟩
    intro y hy
    exact retryAux_waits_head call W r (a + 1) (min (w * 2) W) y hy

theorem retryAux_waits_mono (call : Nat → CallOutcome) (W : ℚ) (hW : 0 ≤ W) :
    ∀ (r a : Nat) (w : ℚ), 0 ≤ w → List.Chain' (· ≤ ·) (retryAux call W a w r).2 := by
  intro r
  induction r with
  | zero => intro a w _; cases hc : call a <;> simp [retryAux, hc]
  | succ r ih =>
    intro a w hw
    cases hc : call a <;> simp [retryAux, hc]
    have hw1 : (0:ℚ) ≤ min (w * 2) W := le_min (by linarith) hW
    refine List.chain'_cons'.2 ⟨?_, ih (a + 1) (min (w * 2) W) hw1⟩
    intro y hy
    have hy2 := retryAux_waits_head call W r (a + 1) (min (w * 2) W) y hy
    subst hy2
    exact le_min (by linarith) (min_le_right _ _)

theorem retryAux_success (call : Nat → CallOutcome) (W : ℚ) (m : Nat) :
    ∀ (k a : Nat) (w : ℚ) (r : Nat), k ≤ r →
      (∀ i, i < k → call (a + i) = .timedOut) → call (a + k) = .ok m →
      (retryAux call W a w r).1 = .success m (a + k + 1) ∧
      (retryAux call W a w r).2.length = k := by
  intro k
  induction k with
  | zero =>
    intro a w r _ _ hok
    have ha : call a = .ok m := by simpa using hok
    cases r <;> simp [retryAux, ha]
  | succ k ih =>
    intro a w r hkr hfail hok
    have h0 : call a = .timedOut := by simpa using hfail 0 (Nat.succ_pos k)
    cases r with
    | zero => omega
    | succ r =>
      have hrec := ih (a + 1) (min (w * 2) W) r (by omega)
        (fun i hi => by
          have := hfail (i + 1) (by omega)
          simpa [Nat.add_assoc, Nat.add_comm 1 i] using this)
        (by simpa [Nat.add_assoc, Nat.add_comm 1 k] using hok)
      have hidx : a + 1 + k + 1 = a + (k + 1) + 1 := by omega
      simp only [retryAux, h0]
      exact ⟨by rw [← hidx]; exact hrec.1, by simp [hrec.2]⟩

theorem retryAux_exhausted (call : Nat → CallOutcome) (W : ℚ) :
    ∀ (r a : Nat) (w : ℚ), (∀ i, i ≤ r → call (a + i) = .timedOut) →
      (retryAux call W a w r).1 = .transientExhausted := by
  intro r
  induction r with
  | zero =>
    intro a w h
    have ha : call a = .timedOut := by simpa using h 0 (Nat.le_refl 0)
    simp [retryAux, ha]
  | succ r ih =>
    intro a w h
    have h0 : call a = .timedOut := by simpa using h 0 (by omega)
    simp only [retryAux, h0]
    exact ih (a + 1) (min (w * 2) W) (fun i hi => by
      have := h (i + 1) (by omega)
      simpa [Nat.add_assoc, Nat.add_comm 1 i] using this)

theorem markHandledScoped_getElem? (rows : List MessageMap) (u : Nat) (fg : Bool)
    (gid : Option Int) (h n i : Nat) :
    (markHandledScoped rows u fg gid h n)[i]? = (rows[i]?).map (fun r =>
      if unreadQueryMatches r u fg gid then
        { r with is_unread_topic := false, handled_by_user_id := some h,
                 handled_time := some n }
      else r) := by
  simp [markHandledScoped]

theorem markHandledScoped_frame (rows : List MessageMap) (u : Nat) (fg : Bool)
    (gid : Option Int) (h n i : Nat) (hi : i < rows.length)
    (hc : unreadQueryMatches rows[i] u fg gid = false) :
    (markHandledScoped rows u fg gid h n)[i]? = rows[i]? := by
  have hv : rows[i]? = some rows[i] := by
    simp [List.getElem?_eq_getElem hi]
  rw [markHandledScoped_getElem?, hv]
  simp [hc]

theorem markHandledScoped_clears (rows : List MessageMap) (u : Nat) (fg : Bool)
    (gid : Option Int) (h n i : Nat) (hi : i < rows.length)
    (hc : unreadQueryMatches rows[i] u fg gid = true) :
    (markHandledScoped rows u fg gid h n)[i]? =
      some { rows[i] with is_unread_topic := false,
                          handled_by_user_id := some h,
                          handled_time := some n } := by
  have hv : rows[i]? = some rows[i] := by
    simp [List.getElem?_eq_getElem hi]
  rw [markHandledScoped_getElem?, hv]
  simp [hc]

/-! # Claims -/

/-- Claim C2: every transport call wrapped by `retry_with_backoff`
retries transient failures with exponential backoff — each wait is the
previous wait doubled, capped at `max_wait` (60) — up to `max_retries`;
a call failing with transient errors exactly `max_retries` times and
then succeeding is retried exactly `max_retries` times (waits
non-decreasing, each capped), and a call exceeding `max_retries`
transient failures surfaces `transientExhausted` to the caller. -/
theorem claim2_theorem (call call2 : Nat → CallOutcome) (mr : Nat) (w0 : ℚ) (m : Nat)
    (hw0 : 0 ≤ w0)
    (hfail : ∀ i, i < mr → call i = .timedOut) (hok : call mr = .ok m)
    (hall : ∀ i, i ≤ mr → call2 i = .timedOut) :
    (retry_with_backoff call (get_retry_config mr w0)).1 = .success m (mr + 1) ∧
    (retry_with_backoff call (get_retry_config mr w0)).2.length = mr ∧
    List.Chain' (· ≤ ·) (retry_with_backoff call (get_retry_config mr w0)).2 ∧
    (∀ x ∈ (retry_with_backoff call (get_retry_config mr w0)).2, 0 ≤ x ∧ x ≤ 60) ∧
    List.Chain' (fun x y => y = min (x * 2) (60:ℚ))
      (retry_with_backoff call (get_retry_config mr w0)).2 ∧
    (∀ x, ((retry_with_backoff call (get_retry_config mr w0)).2).head? = some x →
      x = min (w0 * 2) 60) ∧
    (retry_with_backoff call2 (get_retry_config mr w0)).1 = .transientExhausted := by
  have hs := retryAux_success call 60 m mr 0 w0 mr (Nat.le_refl mr)
    (fun i hi => by simpa using hfail i hi) (by simpa using hok)
  refine ⟨by simpa [retry_with_backoff, get_retry_config] using hs.1,
    by simpa [retry_with_backoff, get_retry_config] using hs.2,
    by simpa [retry_with_backoff, get_retry_config] using
      retryAux_waits_mono call 60 (by norm_num) mr 0 w0 hw0,
    ?_, ?_, ?_, ?_⟩
  · intro x hx
    exact retryAux_waits_bounds call 60 (by norm_num) mr 0 w0 hw0 x
      (by simpa [retry_with_backoff, get_retry_config] using hx)
  · simpa [retry_with_backoff, get_retry_config] using
      retryAux_waits_doubling call 60 mr 0 w0
  · intro x hx
    exact retryAux_waits_head call 60 mr 0 w0 x
      (by simpa [retry_with_backoff, get_retry_config] using hx)
  · simpa [retry_with_backoff, get_retry_config] using
      retryAux_exhausted call2 60 mr 0 w0 (fun i hi => by simpa using hall i hi)

/-- Witness for claim C2 at the default configuration
(`max_retries = 3`, `initial_wait = 1.0`, `max_wait = 60.0`). -/
theorem claim2_witness :
    (retry_with_backoff c2CallThreeTimeouts (get_retry_config 3 1)).1 = .success 42 4 ∧
    (retry_with_backoff c2CallThreeTimeouts (get_retry_config 3 1)).2.length = 3 ∧
    (retry_with_backoff c2CallAlwaysTimeout (get_retry_config 3 1)).1 =
      .transientExhausted := by
  have h := claim2_theorem c2CallThreeTimeouts c2CallAlwaysTimeout 3 1 42
    (by norm_num)
    (fun i hi => by simp [c2CallThreeTimeouts, hi])
    (by simp [c2CallThreeTimeouts])
    (fun i _ => rfl)
  exact ⟨h.1, h.2.1, h.2.2.2.2.2.2⟩

/-- Claim C1 is refuted: on a transport where every send into a topic
fails with a stale-thread error and thread recreation always succeeds,
`send_message_to_topic` performs a recreation cycle after every stale
failure — three failures yield three recreations within the one
logical operation, so the second stale failure is not surfaced as
failure and recreation is not limited to once. -/
theorem claim1_counterexample :
    (send_message_to_topic allStaleTransport 1 0 3).2 = 3 ∧
    1 < (send_message_to_topic allStaleTransport 1 0 3).2 ∧
    send_message_to_topic allStaleTransport 1 0 3 ≠ (.failed, 1) := by
  decide

/-- Claim C1 as amended: when a relay send fails with a stale-thread
error, the engine deletes the local thread record, recreates the
thread and retries the operation against the new thread — but this
recreate-and-retry cycle is not bounded to once per logical operation:
it repeats after every further stale failure (one recreation per stale
failure, indefinitely while sends keep failing stale), and the
operation is surfaced as failure only when recreation itself fails or
a non-stale error occurs. -/
theorem claim1_theorem (env envF envS : TopicTransport) (t t' m tF : Nat)
    (f : Nat → Nat)
    (h1 : env.sendCopy t = .staleThread) (h2 : env.recreateTopic 0 = some t')
    (h3 : env.sendCopy t' = .sent m)
    (hF1 : envF.sendCopy tF = .staleThread) (hF2 : envF.recreateTopic 0 = none)
    (hS1 : ∀ i, envS.sendCopy i = .staleThread)
    (hS2 : ∀ n, envS.recreateTopic n = some (f n)) :
    send_message_to_topic env t 0 2 = (.success m, 1) ∧
    (∀ fuel, send_message_to_topic envF tF 0 (fuel + 1) = (.failed, 0)) ∧
    (∀ fuel r t0, (send_message_to_topic envS t0 r fuel).2 = r + fuel) := by
  refine ⟨by simp [send_message_to_topic, h1, h2, h3], ?_, ?_⟩
  · intro fuel
    simp [send_message_to_topic, hF1, hF2]
  · intro fuel
    induction fuel with
    | zero => intro r t0; simp [send_message_to_topic]
    | succ fuel ih =>
      intro r t0
      simp only [send_message_to_topic, hS1 t0, hS2 r]
      rw [ih (r + 1) (f r)]
      omega

/-- Witness for the amended claim C1: one stale failure is healed by
one recreation; failed recreation surfaces failure; with every send
stale, five steps perform five recreations. -/
theorem claim1_witness :
    send_message_to_topic c1HappyTransport 1 0 2 = (.success 77, 1) ∧
    send_message_to_topic c1FailTransport 1 0 4 = (.failed, 0) ∧
    (send_message_to_topic allStaleTransport 1 0 5).2 = 0 + 5 := by
  have h := claim1_theorem c1HappyTransport c1FailTransport allStaleTransport
    1 5 77 1 (fun n => 100 + n) (by decide) (by decide) (by decide)
    (by decide) (by decide) (fun i => rfl) (fun n => rfl)
  exact ⟨h.1, h.2.1 3, h.2.2 5 0 1⟩

/-- Claim C3: when a newly relayed message arrives for a user who
already has an unread cross-reference with the same source-channel
key, the new message's cross-reference is flagged unread but no alert
is posted; when no such unread cross-reference exists, exactly one
alert is posted and its message id is stored on the triggering row.
Consequently five inbound private messages from user 7 with no
intervening mark-read yield exactly one alert, and after mark-read the
next inbound message posts a new alert. -/
theorem claim3_theorem (st : UnreadState) (userId adminMsgId alertId : Nat)
    (m : MessageMap)
    (hfind : st.rows.find? (fun r => r.group_chat_message_id == adminMsgId) = some m) :
    (hasUnreadSameSource st.rows userId m.is_from_group m.source_group_id = true →
      (send_to_unread_topic st userId adminMsgId alertId).1.alerts = st.alerts ∧
      (send_to_unread_topic st userId adminMsgId alertId).2 = true ∧
      (send_to_unread_topic st userId adminMsgId alertId).1.rows.find?
          (fun r => r.group_chat_message_id == adminMsgId) =
        some { m with is_unread_topic := true }) ∧
    (hasUnreadSameSource st.rows userId m.is_from_group m.source_group_id = false →
      (send_to_unread_topic st userId adminMsgId alertId).1.alerts =
        st.alerts ++ [alertId] ∧
      (send_to_unread_topic st userId adminMsgId alertId).1.rows.find?
          (fun r => r.group_chat_message_id == adminMsgId) =
        some { m with is_unread_topic := true,
                      unread_topic_message_id := some alertId }) ∧
    burstState.alerts = [500] ∧
    (relayPrivateMessage burstHandled 7 6 106 505).1.alerts = [500, 505] := by
  refine ⟨?_, ?_, by decide, by decide⟩
  · intro hdup
    have hrows := find?_updateFirstBy (fun r => r.group_chat_message_id == adminMsgId)
      (fun r => { r with is_unread_topic := true }) st.rows (fun x hx => hx)
    refine ⟨by simp [send_to_unread_topic, hfind, hdup], ?_, ?_⟩
    · simp [send_to_unread_topic, hfind, hdup]
    · simp only [send_to_unread_topic, hfind, hdup]
      simp [hrows, hfind]
  · intro hdup
    have hrows := find?_updateFirstBy (fun r => r.group_chat_message_id == adminMsgId)
      (fun r => { r with is_unread_topic := true,
                         unread_topic_message_id := some alertId }) st.rows
      (fun x hx => hx)
    refine ⟨by simp [send_to_unread_topic, hfind, hdup], ?_⟩
    simp only [send_to_unread_topic, hfind, hdup]
    simp [hrows, hfind]

/-- Witness for claim C3: with user 7 already holding an unread private
row, a new private message (admin id 50) posts no alert; the burst
facts are instantiated by the same application. -/
theorem claim3_witness :
    (send_to_unread_topic c3State 7 50 500).1.alerts = [] ∧
    (send_to_unread_topic c3State 7 50 500).2 = true ∧
    burstState.alerts = [500] ∧
    (relayPrivateMessage burstHandled 7 6 106 505).1.alerts = [500, 505] := by
  have h := claim3_theorem c3State 7 50 500 c3UnreadRow (by decide)
  have hA := h.1 (by decide)
  exact ⟨hA.1, hA.2.1, h.2.2.1, h.2.2.2⟩

/-- Claim C4: a mark-read triggered from a (user, group-A) context
clears the unread flag only on that user's cross-references whose
source-channel key is group-A — rows of other users, private-sourced
rows and rows from any other group-B are left unchanged — and a
mark-read triggered from a private context leaves all group-sourced
rows unchanged. -/
theorem claim4_theorem (rows : List MessageMap) (msgId handlerId now : Nat)
    (m : MessageMap)
    (hfind : rows.find? (fun r => r.group_chat_message_id == msgId) = some m) :
    (∀ a : Int, m.is_from_group = true → m.source_group_id = some a → a ≠ 0 →
      ∀ i, (hi : i < rows.length) →
        (rows[i].user_telegram_id ≠ m.user_telegram_id →
          (process_callback_read rows msgId handlerId now)[i]? = rows[i]?) ∧
        (rows[i].is_from_group = false →
          (process_callback_read rows msgId handlerId now)[i]? = rows[i]?) ∧
        (∀ b : Int, rows[i].source_group_id = some b → b ≠ a →
          (process_callback_read rows msgId handlerId now)[i]? = rows[i]?) ∧
        (rows[i].user_telegram_id = m.user_telegram_id →
         rows[i].is_unread_topic = true → rows[i].is_from_group = true →
         rows[i].source_group_id = some a →
          (process_callback_read rows msgId handlerId now)[i]? =
            some { rows[i] with is_unread_topic := false,
                                handled_by_user_id := some handlerId,
                                handled_time := some now })) ∧
    (m.is_from_group = false →
      ∀ i, (hi : i < rows.length) →
        (rows[i].is_from_group = true →
          (process_callback_read rows msgId handlerId now)[i]? = rows[i]?) ∧
        (rows[i].user_telegram_id ≠ m.user_telegram_id →
          (process_callback_read rows msgId handlerId now)[i]? = rows[i]?) ∧
        (rows[i].user_telegram_id = m.user_telegram_id →
         rows[i].is_unread_topic = true → rows[i].is_from_group = false →
          (process_callback_read rows msgId handlerId now)[i]? =
            some { rows[i] with is_unread_topic := false,
                                handled_by_user_id := some handlerId,
                                handled_time := some now })) := by
  constructor
  · intro a hm hgid ha i hi
    have hb : optIntTruthy m.source_group_id = true := by
      simp [optIntTruthy, hgid, ha]
    have hkey : process_callback_read rows msgId handlerId now =
        markHandledScoped rows m.user_telegram_id true m.source_group_id
          handlerId now := by
      simp [process_callback_read, hfind, hm, hb]
    rw [hkey]
    refine ⟨?_, ?_, ?_, ?_⟩
    · intro hne
      exact markHandledScoped_frame _ _ _ _ _ _ i hi
        (by simp [unreadQueryMatches, hne])
    · intro hpriv
      exact markHandledScoped_frame _ _ _ _ _ _ i hi
        (by simp [unreadQueryMatches, hpriv])
    · intro b hbrow hba
      exact markHandledScoped_frame _ _ _ _ _ _ i hi
        (by simp [unreadQueryMatches, hgid, hbrow, hba])
    · intro hu hur hg hga
      exact markHandledScoped_clears _ _ _ _ _ _ i hi
        (by simp [unreadQueryMatches, hu, hur, hg, hga, hgid])
  · intro hm i hi
    have hkey : process_callback_read rows msgId handlerId now =
        markHandledScoped rows m.user_telegram_id false none handlerId now := by
      simp [process_callback_read, hfind, hm]
    rw [hkey]
    refine ⟨?_, ?_, ?_⟩
    · intro hg
      exact markHandledScoped_frame _ _ _ _ _ _ i hi
        (by simp [unreadQueryMatches, hg])
    · intro hne
      exact markHandledScoped_frame _ _ _ _ _ _ i hi
        (by simp [unreadQueryMatches, hne])
    · intro hu hur hg
      exact markHandledScoped_clears _ _ _ _ _ _ i hi
        (by simp [unreadQueryMatches, hu, hur, hg])

/-- Witness for claim C4: marking read from user 7's group -100 row
clears only that row; the same user's group -200 row, private row and
user 8's row are untouched. -/
theorem claim4_witness :
    (process_callback_read c4Rows 50 9 0)[1]? = c4Rows[1]? ∧
    (process_callback_read c4Rows 50 9 0)[2]? = c4Rows[2]? ∧
    (process_callback_read c4Rows 50 9 0)[3]? = c4Rows[3]? ∧
    (process_callback_read c4Rows 50 9 0)[0]? =
      some { c4RowGroupA with is_unread_topic := false,
                              handled_by_user_id := some 9,
                              handled_time := some 0 } := by
  have h := (claim4_theorem c4Rows 50 9 0 c4RowGroupA (by decide)).1 (-100)
    rfl rfl (by decide)
  exact ⟨(h 1 (by decide)).2.2.1 (-200) rfl (by decide),
    (h 2 (by decide)).2.1 rfl,
    (h 3 (by decide)).1 (by decide),
    (h 0 (by decide)).2.2.2 rfl rfl rfl rfl⟩

/-- Claim C10: when the operator's mark-all-read action is invoked from
a message whose topic has no stored thread record, every unread
cross-reference of the target user is cleared (unread flag off, handler
id and handling time set) regardless of its source channel, while rows
of other users and already-read rows are unchanged. -/
theorem claim10_theorem (formn : List FormnStatus) (rows : List MessageMap)
    (targetUserId t handlerId now : Nat)
    (hfs : formn.find? (fun f => f.topic_id == t) = none) :
    ∀ i, (hi : i < rows.length) →
      (rows[i].user_telegram_id = targetUserId → rows[i].is_unread_topic = true →
        (process_callback_read_all formn rows targetUserId (some t) handlerId now)[i]? =
          some { rows[i] with is_unread_topic := false,
                              handled_by_user_id := some handlerId,
                              handled_time := some now }) ∧
      (rows[i].user_telegram_id ≠ targetUserId →
        (process_callback_read_all formn rows targetUserId (some t) handlerId now)[i]? =
          rows[i]?) ∧
      (rows[i].is_unread_topic = false →
        (process_callback_read_all formn rows targetUserId (some t) handlerId now)[i]? =
          rows[i]?) := by
  intro i hi
  have hkey : process_callback_read_all formn rows targetUserId (some t) handlerId now =
      rows.map (fun r =>
        if r.user_telegram_id == targetUserId && r.is_unread_topic then
          { r with is_unread_topic := false, handled_by_user_id := some handlerId,
                   handled_time := some now }
        else r) := by
    simp [process_callback_read_all, hfs]
  have hv : rows[i]? = some rows[i] := by simp [List.getElem?_eq_getElem hi]
  refine ⟨?_, ?_, ?_⟩
  · intro hu hur
    rw [hkey]
    simp [hv, hu, hur]
  · intro hne
    rw [hkey]
    simp [hv, hne]
  · intro hur
    rw [hkey]
    simp [hv, hur]

/-- Witness for claim C10: with no thread record for topic 999, the
mark-all-read fallback clears user 7's group-sourced and private rows
alike and leaves user 8's row unchanged. -/
theorem claim10_witness :
    (process_callback_read_all [] c4Rows 7 (some 999) 9 0)[0]? =
      some { c4RowGroupA with is_unread_topic := false,
                              handled_by_user_id := some 9,
                              handled_time := some 0 } ∧
    (process_callback_read_all [] c4Rows 7 (some 999) 9 0)[2]? =
      some { c4RowPrivate with is_unread_topic := false,
                               handled_by_user_id := some 9,
                               handled_time := some 0 } ∧
    (process_callback_read_all [] c4Rows 7 (some 999) 9 0)[3]? = c4Rows[3]? := by
  have h := claim10_theorem [] c4Rows 7 999 9 0 rfl
  exact ⟨(h 0 (by decide)).1 rfl rfl, (h 2 (by decide)).1 rfl rfl,
    (h 3 (by decide)).2.1 (by decide)⟩

/-- Claim C5: reply round-trip through the cross-reference store.  If a
user message with origin id `O` is relayed and mirrored as `M`, an
admin message replying to `M` is relayed back with `reply_to_message_id
= O`, resolved through the stored cross-reference; symmetrically, if an
admin message `M2` is mirrored to the user as `S2`, a user message
replying to `S2` is relayed with `reply_to_message_id = M2`. -/
theorem claim5_theorem (st : BotState) (uid t O M n1 M2 S2 O2 M3 : Nat)
    (u u2 : BotUser)
    (hu : st.users.find? (fun x => x.user_id == uid) = some u)
    (hut : u.message_thread_id = t) (ht : t ≠ 0)
    (hu2 : st.users.find? (fun x => x.message_thread_id == t) = some u2)
    (hopen : ∀ f, st.formn.find? (fun f => f.message_thread_id == t) = some f →
      f.status ≠ "closed")
    (hfreshM : st.message_map.find? (fun mm => mm.group_chat_message_id == M) = none)
    (hfreshS : st.message_map.find? (fun mm => mm.user_chat_message_id == S2) = none) :
    (forwarding_message_a2u (forwarding_message_u2a st uid O none M).1 t n1 .plain
        (some M) (n1 + 1)).2 = .relayed (n1 + 1) (some O) ∧
    (forwarding_message_u2a (forwarding_message_a2u st t M2 .plain none S2).1 uid O2
        (some S2) M3).2 = .relayed M3 (some M2) := by
  have ht0 : (t == 0) = false := by simpa using ht
  constructor
  · have hstep1 : forwarding_message_u2a st uid O none M =
        ({ st with message_map := st.message_map ++
            [{ user_chat_message_id := O, group_chat_message_id := M,
               user_telegram_id := uid }] }, .relayed M none) := by
      cases hf : st.formn.find? (fun f => f.message_thread_id == t) with
      | none => simp [forwarding_message_u2a, hu, hut, hf, u2aSend, ht0]
      | some f =>
        have hcl : (f.status == "closed") = false := by simpa using hopen f hf
        simp [forwarding_message_u2a, hu, hut, hf, hcl, u2aSend, ht0]
    rw [hstep1]
    cases hf : st.formn.find? (fun f => f.message_thread_id == t) with
    | none => simp [forwarding_message_a2u, ht0, hu2, hf, a2uSend, hfreshM]
    | some f =>
      have hcl : (f.status == "closed") = false := by simpa using hopen f hf
      simp [forwarding_message_a2u, ht0, hu2, hf, hcl, a2uSend, hfreshM]
  · have hstep1 : forwarding_message_a2u st t M2 .plain none S2 =
        ({ st with message_map := st.message_map ++
            [{ user_chat_message_id := S2, group_chat_message_id := M2,
               user_telegram_id := u2.user_id }] }, .relayed S2 none) := by
      cases hf : st.formn.find? (fun f => f.message_thread_id == t) with
      | none => simp [forwarding_message_a2u, ht0, hu2, hf, a2uSend]
      | some f =>
        have hcl : (f.status == "closed") = false := by simpa using hopen f hf
        simp [forwarding_message_a2u, ht0, hu2, hf, hcl, a2uSend]
    rw [hstep1]
    cases hf : st.formn.find? (fun f => f.message_thread_id == t) with
    | none => simp [forwarding_message_u2a, hu, hut, hf, u2aSend, ht0, hfreshS]
    | some f =>
      have hcl : (f.status == "closed") = false := by simpa using hopen f hf
      simp [forwarding_message_u2a, hu, hut, hf, hcl, u2aSend, ht0, hfreshS]

/-- Witness for claim C5: origin 100 mirrored as 200, the reply to 200
threads back to 100; admin message 400 mirrored as 500, the user reply
to 500 threads back to 400. -/
theorem claim5_witness :
    (forwarding_message_a2u (forwarding_message_u2a c5State 7 100 none 200).1 3 77
        .plain (some 200) 78).2 = .relayed 78 (some 100) ∧
    (forwarding_message_u2a (forwarding_message_a2u c5State 3 400 .plain none 500).1 7
        600 (some 500) 601).2 = .relayed 601 (some 400) := by
  have h := claim5_theorem c5State 7 3 100 200 77 400 500 600 601
    { user_id := 7, message_thread_id := 3 } { user_id := 7, message_thread_id := 3 }
    (by decide) rfl (by decide) (by decide)
    (fun f hf => by simp [c5State] at hf) rfl rfl
  exact h

/-- Claim C7: closed-thread policy.  While a thread's status row says
`"closed"`, an inbound user message is rejected with a notice and the
state — in particular the cross-reference store — is unchanged, and an
operator message into that thread is rejected with a reopen notice,
also leaving the state unchanged.  After a thread-reopened signal the
status row reads `"opened"` and both directions relay again, each
committing its cross-reference row. -/
theorem claim7_theorem (st : BotState) (uid t msgId sentId O M M2 S2 : Nat)
    (u u2 : BotUser) (f : ThreadStatusRow)
    (hu : st.users.find? (fun x => x.user_id == uid) = some u)
    (hut : u.message_thread_id = t) (ht : t ≠ 0)
    (hu2 : st.users.find? (fun x => x.message_thread_id == t) = some u2)
    (hf : st.formn.find? (fun x => x.message_thread_id == t) = some f) :
    (f.status = "closed" →
      forwarding_message_u2a st uid msgId none sentId = (st, .closedNotice)) ∧
    (f.status = "closed" →
      forwarding_message_a2u st t msgId .plain none sentId = (st, .closedNotice)) ∧
    (forwarding_message_a2u st t msgId .topicReopened none sentId).1.formn.find?
        (fun x => x.message_thread_id == t) = some { f with status := "opened" } ∧
    forwarding_message_u2a
        (forwarding_message_a2u st t msgId .topicReopened none sentId).1 uid O none M =
      ({ (forwarding_message_a2u st t msgId .topicReopened none sentId).1 with
          message_map := st.message_map ++
            [{ user_chat_message_id := O, group_chat_message_id := M,
               user_telegram_id := uid }] },
       .relayed M none) ∧
    forwarding_message_a2u
        (forwarding_message_a2u st t msgId .topicReopened none sentId).1 t M2 .plain
          none S2 =
      ({ (forwarding_message_a2u st t msgId .topicReopened none sentId).1 with
          message_map := st.message_map ++
            [{ user_chat_message_id := S2, group_chat_message_id := M2,
               user_telegram_id := u2.user_id }] },
       .relayed S2 none) := by
  have ht0 : (t == 0) = false := by simpa using ht
  have hstR : forwarding_message_a2u st t msgId .topicReopened none sentId =
      ({ st with formn := setThreadStatus st.formn t "opened" }, .statusRecorded) := by
    simp [forwarding_message_a2u, ht0, hu2]
  have hfR : (setThreadStatus st.formn t "opened").find?
      (fun x => x.message_thread_id == t) = some { f with status := "opened" } := by
    rw [setThreadStatus, find?_updateFirstBy (fun x => x.message_thread_id == t)
      (fun x => { x with status := "opened" }) st.formn (fun x hx => hx), hf]
    rfl
  refine ⟨?_, ?_, ?_, ?_, ?_⟩
  · intro hcl
    have hcl2 : (f.status == "closed") = true := by simp [hcl]
    simp [forwarding_message_u2a, hu, hut, hf, hcl2]
  · intro hcl
    have hcl2 : (f.status == "closed") = true := by simp [hcl]
    simp [forwarding_message_a2u, ht0, hu2, hf, hcl2]
  · rw [hstR]
    exact hfR
  · rw [hstR]
    simp [forwarding_message_u2a, hu, hut, hfR, u2aSend, ht0]
  · rw [hstR]
    simp [forwarding_message_a2u, ht0, hu2, hfR, a2uSend]

/-- Witness for claim C7: with thread 3 closed, both directions are
rejected leaving the state unchanged; after the reopen signal the user
message is relayed. -/
theorem claim7_witness :
    forwarding_message_u2a c7State 7 10 none 20 = (c7State, .closedNotice) ∧
    forwarding_message_a2u c7State 3 10 .plain none 20 = (c7State, .closedNotice) ∧
    (forwarding_message_u2a (forwarding_message_a2u c7State 3 10 .topicReopened
        none 20).1 7 100 none 200).2 = .relayed 200 none := by
  have h := claim7_theorem c7State 7 3 10 20 100 200 400 500
    { user_id := 7, message_thread_id := 3 } { user_id := 7, message_thread_id := 3 }
    { message_thread_id := 3, status := "closed" }
    (by decide) rfl (by decide) (by decide) (by decide)
  exact ⟨h.1 rfl, h.2.1 rfl, by rw [h.2.2.2.1]⟩

/-- Claim C6 is refuted: two concurrent first-contact operations for
(user 7, private) interleaved as lookup-lookup-insert-insert both see
an empty registry (the lookup is the code's only duplicate guard), and
both inserts pass the database's only declared uniqueness check —
`topic_id` (models/formn_status.py declares no uniqueness constraint on
(user id, source-channel key, non-system flag)) — leaving two
non-system thread rows for the same (user, source-channel key). -/
theorem claim6_counterexample :
    findUserTopic [] 7 false none = none ∧
    create_or_get_user_topic [] 7 false none 10 = ([racingRowA], some 10) ∧
    create_or_get_user_topic [] 7 false none 11 = ([racingRowB], some 11) ∧
    formnInsertOk [racingRowA] racingRowB = true ∧
    countNonSystemTopics [racingRowA, racingRowB] 7 false none = 2 := by
  decide

/-- Claim C6 as amended: sequentially, thread creation is idempotent —
a call that finds an existing row for (user, source-channel key)
returns it without inserting, and after one successful creation every
repeated sequential call returns the same thread and inserts nothing,
so repeated sequential first-contact events leave exactly one row.
However the persistence model declares a uniqueness constraint only on
`topic_id`, not on (user id, source-channel key, non-system flag), so
concurrent first-contact events interleaving lookup and insert can
still create duplicate rows. -/
theorem claim6_theorem (db : List FormnStatus) (uid : Nat) (fromGroup : Bool)
    (gid : Option Int) (fresh : Nat)
    (hnone : findUserTopic db uid fromGroup gid = none)
    (hok : formnInsertOk db (newTopicRow uid fromGroup gid fresh) = true) :
    create_or_get_user_topic db uid fromGroup gid fresh =
      (db ++ [newTopicRow uid fromGroup gid fresh], some fresh) ∧
    (∀ fresh2, create_or_get_user_topic
        (db ++ [newTopicRow uid fromGroup gid fresh]) uid fromGroup gid fresh2 =
      (db ++ [newTopicRow uid fromGroup gid fresh], some fresh)) ∧
    (∀ (db2 : List FormnStatus) (f2 : FormnStatus) (fresh3 : Nat),
      findUserTopic db2 uid fromGroup gid = some f2 →
      create_or_get_user_topic db2 uid fromGroup gid fresh3 = (db2, some f2.topic_id)) := by
  have hrow : (fun f => f.user_id == some uid && f.from_group == fromGroup &&
      (if fromGroup && optIntTruthy gid then f.source_group_id == gid else true))
      (newTopicRow uid fromGroup gid fresh) = true := by
    cases fromGroup <;> cases hgt : optIntTruthy gid <;>
      simp [newTopicRow, hgt]
  have hnone2 : db.find? (fun f => f.user_id == some uid && f.from_group == fromGroup &&
      (if fromGroup && optIntTruthy gid then f.source_group_id == gid else true)) =
      none := hnone
  refine ⟨?_, ?_, ?_⟩
  · simp [create_or_get_user_topic, hnone, hok]
  · intro fresh2
    have hfound : findUserTopic (db ++ [newTopicRow uid fromGroup gid fresh])
        uid fromGroup gid = some (newTopicRow uid fromGroup gid fresh) := by
      unfold findUserTopic
      rw [List.find?_append, hnone2]
      have hsingle : List.find? (fun f => f.user_id == some uid &&
          f.from_group == fromGroup &&
          (if fromGroup && optIntTruthy gid then f.source_group_id == gid else true))
          [newTopicRow uid fromGroup gid fresh] =
          some (newTopicRow uid fromGroup gid fresh) :=
        List.find?_cons_of_pos _ hrow
      exact hsingle
    simp only [create_or_get_user_topic, hfound]
    simp [newTopicRow]
  · intro db2 f2 fresh3 hfound
    simp [create_or_get_user_topic, hfound]

/-- Witness for the amended claim C6: the first private first-contact of
user 7 creates one row; the second sequential call returns the same
thread (topic 10) and inserts nothing. -/
theorem claim6_witness :
    create_or_get_user_topic [] 7 false none 10 =
      ([newTopicRow 7 false none 10], some 10) ∧
    create_or_get_user_topic [newTopicRow 7 false none 10] 7 false none 11 =
      ([newTopicRow 7 false none 10], some 10) := by
  have h := claim6_theorem [] 7 false none 10 rfl rfl
  exact ⟨h.1, by simpa using h.2.1 11⟩

/-- Claim C9: when thread resolution/creation fails after retries, the
dispatcher surfaces a user-visible failure notice and persists no
cross-reference row; in every run of `forward_message_to_admin`, the
cross-reference table either is left exactly as it was or gains exactly
the one row for a delivery that the transport reported successful. -/
theorem claim9_theorem (env : AdminForwardEnv) (rows : List MessageMap)
    (uid msgId : Nat) (hres : env.resolveTopic 0 = none) :
    forward_message_to_admin env rows uid msgId false = (rows, .topicFailureNotice) ∧
    (∀ env2 : AdminForwardEnv,
      (forward_message_to_admin env2 rows uid msgId false).1 = rows ∨
      ∃ m, (env2.sendAttempt 0 = .delivered m ∨
            (env2.sendAttempt 0 = .staleRaised ∧ env2.sendAttempt 1 = .delivered m)) ∧
        forward_message_to_admin env2 rows uid msgId false =
          (persistAdminMap rows uid msgId m, .relayed m)) := by
  constructor
  · simp [forward_message_to_admin, hres]
  · intro env2
    cases hr0 : env2.resolveTopic 0 with
    | none => exact Or.inl (by simp [forward_message_to_admin, hr0])
    | some tp =>
      cases hs0 : env2.sendAttempt 0 with
      | delivered m =>
        exact Or.inr ⟨m, Or.inl rfl, by simp [forward_message_to_admin, hr0, hs0]⟩
      | unsupported => exact Or.inl (by simp [forward_message_to_admin, hr0, hs0])
      | otherRaised => exact Or.inl (by simp [forward_message_to_admin, hr0, hs0])
      | staleRaised =>
        cases hr1 : env2.resolveTopic 1 with
        | none => exact Or.inl (by simp [forward_message_to_admin, hr0, hs0, hr1])
        | some tp2 =>
          cases hs1 : env2.sendAttempt 1 with
          | delivered m =>
            exact Or.inr ⟨m, Or.inr ⟨rfl, rfl⟩,
              by simp [forward_message_to_admin, hr0, hs0, hr1, hs1]⟩
          | unsupported =>
            exact Or.inl (by simp [forward_message_to_admin, hr0, hs0, hr1, hs1])
          | staleRaised =>
            exact Or.inl (by simp [forward_message_to_admin, hr0, hs0, hr1, hs1])
          | otherRaised =>
            exact Or.inl (by simp [forward_message_to_admin, hr0, hs0, hr1, hs1])

/-- Witness for claim C9: with thread resolution failing, the run ends
in the failure notice and the empty cross-reference table stays
empty. -/
theorem claim9_witness :
    forward_message_to_admin c9NoTopicEnv [] 7 1 false = ([], .topicFailureNotice) := by
  exact (claim9_theorem c9NoTopicEnv [] 7 1 rfl).1

/-- Claim C8: the first part for a (groupKey, direction) schedules
exactly one one-shot task with fixed delay `MEDIA_GROUP_DELAY` (5);
a part arriving while a task of that name is pending is recorded but
schedules no second timer; on firing, the parts recorded for the key
are relayed once as a single batch ordered by message id (a permutation
of exactly the recorded parts), the task is consumed (so a later part
starts a new batch), and each mirrored id is cross-referenced to its
origin part by position. -/
theorem claim8_theorem (st : AggState) (uid msgId : Nat) (mediaGroupId : String)
    (mirrorIds : List Nat) :
    (st.jobs.any (fun j => j.name == mediaGroupJobName mediaGroupId uid) = false →
      (handle_media_group_u2a st uid msgId mediaGroupId).jobs =
        st.jobs ++ [{ name := mediaGroupJobName mediaGroupId uid,
                      delay := MEDIA_GROUP_DELAY }] ∧
      (handle_media_group_u2a st uid msgId mediaGroupId).media_msgs =
        st.media_msgs ++ [{ chat_id := (uid : Int), message_id := msgId,
                            media_group_id := mediaGroupId }]) ∧
    (st.jobs.any (fun j => j.name == mediaGroupJobName mediaGroupId uid) = true →
      (handle_media_group_u2a st uid msgId mediaGroupId).jobs = st.jobs ∧
      (handle_media_group_u2a st uid msgId mediaGroupId).media_msgs =
        st.media_msgs ++ [{ chat_id := (uid : Int), message_id := msgId,
                            media_group_id := mediaGroupId }]) ∧
    (send_media_group_to_admin st uid mediaGroupId mirrorIds).batches =
      st.batches ++
        [(sortByMessageId (mediaPartsOf st uid mediaGroupId)).map (·.message_id)] ∧
    (sortByMessageId (mediaPartsOf st uid mediaGroupId)).Perm
      (mediaPartsOf st uid mediaGroupId) ∧
    List.Sorted (· ≤ ·)
      ((sortByMessageId (mediaPartsOf st uid mediaGroupId)).map (·.message_id)) ∧
    (send_media_group_to_admin st uid mediaGroupId mirrorIds).jobs.any
      (fun j => j.name == mediaGroupJobName mediaGroupId uid) = false ∧
    (∀ i, (hi : i < mirrorIds.length) →
      (hi2 : i < (sortByMessageId (mediaPartsOf st uid mediaGroupId)).length) →
      (send_media_group_to_admin st uid mediaGroupId
          mirrorIds).message_map[st.message_map.length + i]? =
        some { user_chat_message_id :=
                 (sortByMessageId (mediaPartsOf st uid mediaGroupId))[i].message_id,
               group_chat_message_id := mirrorIds[i],
               user_telegram_id := uid }) := by
  refine ⟨?_, ?_, ?_, ?_, ?_, ?_, ?_⟩
  · intro hjob
    constructor <;> simp [handle_media_group_u2a, hjob]
  · intro hjob
    constructor <;> simp [handle_media_group_u2a, hjob]
  · simp [send_media_group_to_admin]
  · exact List.perm_insertionSort byMessageId _
  · exact List.Pairwise.map _ (fun a b h => h)
      (List.sorted_insertionSort byMessageId (mediaPartsOf st uid mediaGroupId))
  · simp [send_media_group_to_admin, List.any_eq_false, List.mem_filter]
  · intro i hi hi2
    have hmm : (send_media_group_to_admin st uid mediaGroupId mirrorIds).message_map =
        st.message_map ++
          (mirrorIds.zip (sortByMessageId (mediaPartsOf st uid mediaGroupId))).map
            (fun p => { user_chat_message_id := p.2.message_id,
                        group_chat_message_id := p.1,
                        user_telegram_id := uid }) := by
      simp [send_media_group_to_admin]
    rw [hmm, List.getElem?_append_right (by omega)]
    simp [List.zip, List.getElem?_zipWith, List.getElem?_eq_getElem, hi, hi2]

/-- Witness for claim C8: parts 1, 2, 3 of media group "g1" arriving at
t=0,1,2 schedule one task; firing at t=5 relays them as the single
ordered batch [1,2,3] and maps part 1 to mirrored id 201 by position;
a part arriving after the fire schedules a new task. -/
theorem claim8_witness :
    c8s1.jobs = [{ name := mediaGroupJobName "g1" 9, delay := MEDIA_GROUP_DELAY }] ∧
    (handle_media_group_u2a c8s1 9 2 "g1").jobs = c8s1.jobs ∧
    c8s4.batches = [[1, 2, 3]] ∧
    c8s4.message_map[0]? =
      some { user_chat_message_id := 1, group_chat_message_id := 201,
             user_telegram_id := 9 } ∧
    (handle_media_group_u2a c8s4 9 7 "g1").jobs =
      c8s4.jobs ++ [{ name := mediaGroupJobName "g1" 9,
                      delay := MEDIA_GROUP_DELAY }] := by
  refine ⟨?_, ?_, ?_, ?_, ?_⟩
  · exact ((claim8_theorem c8s0 9 1 "g1" []).1 (by decide)).1
  · exact ((claim8_theorem c8s1 9 2 "g1" []).2.1 (by decide)).1
  · show (send_media_group_to_admin c8s3 9 "g1" [201, 202, 203]).batches = [[1, 2, 3]]
    rw [(claim8_theorem c8s3 9 0 "g1" [201, 202, 203]).2.2.1]
    decide
  · have h := (claim8_theorem c8s3 9 0 "g1" [201, 202, 203]).2.2.2.2.2.2 0
      (by decide) (by decide)
    exact h
  · exact ((claim8_theorem c8s4 9 7 "g1" []).1 (by decide)).1

end TelegramBridge
